import Mathlib

/-!
Shallow embedding of the flight-phase control core of iarc7_motion:
the takeoff sequencer (TakeoffController.hpp), the landing sequencer
(LandPlanner.hpp) and the velocity controller (QuadVelocityController.hpp).

The repository provides only the three header files; every method body is
modelled from the natural-language specification (sections 3, 4.1, 4.2,
4.3, 7 and 8 of spec.md), while the headers are the authority for the
state enumerations, the member fields, the static constants and the
constructor signatures.  C++ doubles are embedded as rationals and
ros::Time / ros::Duration values as rational numbers of seconds.
-/

namespace Iarc7Motion

/-- Clamping of a value into the interval [lo, hi] (std::clamp semantics,
used for the acceleration-limited descent-rate ramp). -/
def clamp (x lo hi : ℚ) : ℚ := max lo (min hi x)

/-- A timestamped pose sample from the external pose stream: timestamp,
3D position and yaw orientation (spec section 3, PoseSample). -/
structure PoseSample where
  stamp : ℚ
  x : ℚ
  y : ℚ
  z : ℚ
  yaw : ℚ
deriving DecidableEq

/-- A timestamped scalar sample from a LinearMsgInterpolator channel
(battery voltage or odometry), collapsed to the data the sequencers
inspect: timestamp and value. -/
structure TimedSample where
  stamp : ℚ
  value : ℚ
deriving DecidableEq

/-! ## LandPlanner (LandPlanner.hpp) -/

/-- The landing state machine enumeration, from LandPlanner.hpp lines 25-26. -/
inductive LandState
  | DESCEND
  | DONE
deriving DecidableEq

/-- The LandPlanner state: the fields of the class in LandPlanner.hpp
(the transform wrapper and service client are the external collaborators
whose per-tick answers are passed in as arguments). -/
structure LandPlanner where
  state : LandState
  requested_x : ℚ
  requested_y : ℚ
  requested_height : ℚ
  cushion_height : ℚ
  actual_descend_rate : ℚ
  descend_rate : ℚ
  cushion_rate : ℚ
  descend_acceleration : ℚ
  cushion_acceleration : ℚ
  landing_detected_height : ℚ
  last_update_time : ℚ
  startup_timeout : ℚ
  update_timeout : ℚ
deriving DecidableEq

/-- The motion point emitted by the landing sequencer: held horizontal
position and commanded vertical velocity (spec section 4.3). -/
structure MotionPoint where
  x : ℚ
  y : ℚ
  vz : ℚ
deriving DecidableEq

/-- The observable outcome of one successful landing tick: the emitted
motion point and whether a disarm request was issued through the external
command interface on this tick. -/
structure LandTickOutput where
  cmd : MotionPoint
  disarmRequested : Bool
deriving DecidableEq

/-- Whether the landing sequencer has reached its terminal state
(LandPlanner::isDone). -/
def LandPlanner.isDone (s : LandPlanner) : Bool :=
  decide (s.state = LandState.DONE)

/-- The descent-rate target active at a given height: the cushion rate at
or below cushion_height, the main descend rate above it (spec section 4.3). -/
def LandPlanner.targetRate (s : LandPlanner) (height : ℚ) : ℚ :=
  if height ≤ s.cushion_height then s.cushion_rate else s.descend_rate

/-- The acceleration limit active at a given height: the cushion
acceleration at or below cushion_height, the main descend acceleration
above it (spec section 4.3). -/
def LandPlanner.targetAccel (s : LandPlanner) (height : ℚ) : ℚ :=
  if height ≤ s.cushion_height then s.cushion_acceleration
  else s.descend_acceleration

/-- One step of the first-order rate-limited ramp of actual_descend_rate:
rate plus the target difference clamped to plus or minus acceleration times
elapsed time (spec section 4.3). -/
def LandPlanner.nextRate (s : LandPlanner) (height dt : ℚ) : ℚ :=
  s.actual_descend_rate +
    clamp (s.targetRate height - s.actual_descend_rate)
      (-(s.targetAccel height * dt)) (s.targetAccel height * dt)

/-- Modelled from the spec: the body of LandPlanner::getTargetMotionPoint is
not under src (only its declaration in LandPlanner.hpp is).  Per spec
sections 4.3 and 7: the tick fails without changing state when the pose
sample is missing or staler than update_timeout, or when called in the
terminal DONE state; otherwise the descent rate ramps toward the active
target (descend pair above cushion_height, cushion pair at or below it) by
at most acceleration times elapsed time, the horizontal position is held at
(requested_x, requested_y), and height at or below landing_detected_height
enters DONE and issues a disarm request.  The pose sample stands for the
height lookup through the transform wrapper; the function returns the tick
outcome (none on failure) together with the planner state after the call. -/
def LandPlanner.getTargetMotionPoint (s : LandPlanner) (time : ℚ)
    (pose : Option PoseSample) : Option LandTickOutput × LandPlanner :=
  match pose with
  | none => (none, s)
  | some p =>
    if time - p.stamp > s.update_timeout then (none, s)
    else if s.state = LandState.DONE then (none, s)
    else
      let rate := s.nextRate p.z (time - s.last_update_time)
      let landed := decide (p.z ≤ s.landing_detected_height)
      (some { cmd := { x := s.requested_x, y := s.requested_y, vz := -rate },
              disarmRequested := landed },
       { s with
          state := if landed then LandState.DONE else LandState.DESCEND,
          actual_descend_rate := rate,
          last_update_time := time })

/-! ## TakeoffController (TakeoffController.hpp) -/

/-- The takeoff state machine enumeration, from TakeoffController.hpp
lines 36-39. -/
inductive TakeoffState
  | ARM
  | RAMP
  | PAUSE
  | DONE
deriving DecidableEq

/-- Position of a takeoff state in the one-directional progression
ARM, RAMP, PAUSE, DONE. -/
def TakeoffState.rank : TakeoffState → ℕ
  | TakeoffState.ARM => 0
  | TakeoffState.RAMP => 1
  | TakeoffState.PAUSE => 2
  | TakeoffState.DONE => 3

/-- The thrust model consulted by the takeoff sequencer: the model-derived
initial and target ramp throttles as functions of the current battery
voltage (spec sections 4.2 and 6; ThrustModel.hpp is not under src). -/
structure ThrustModel where
  initialThrottleAt : ℚ → ℚ
  targetThrottleAt : ℚ → ℚ

/-- The TakeoffController state: the fields of the class in
TakeoffController.hpp (the interpolators and the arm service client are
external collaborators whose per-tick answers are passed in as
arguments). -/
structure TakeoffController where
  state : TakeoffState
  throttle : ℚ
  thrust_model : ThrustModel
  post_arm_delay : ℚ
  takeoff_throttle_ramp_duration : ℚ
  last_update_time : ℚ
  startup_timeout : ℚ
  update_timeout : ℚ
  battery_timeout : ℚ
  arm_time : ℚ
  ramp_start_time : ℚ

/-- The orientation-plus-throttle command emitted once per successful tick
(iarc7_msgs::OrientationThrottleStamped). -/
structure OrientationThrottleCommand where
  pitch : ℚ
  roll : ℚ
  yaw : ℚ
  throttle : ℚ
deriving DecidableEq

/-- Whether the takeoff sequencer has reached its terminal state
(TakeoffController::isDone). -/
def TakeoffController.isDone (s : TakeoffController) : Bool :=
  decide (s.state = TakeoffState.DONE)

/-- Modelled from the spec: the body of TakeoffController::update is not
under src (only its declaration in TakeoffController.hpp is).  Per spec
sections 4.2 and 7: every tick requires a battery sample fresh within
battery_timeout and an odometry sample fresh within update_timeout, and a
missing or stale sample fails the tick without changing state.  In ARM a
failed arm request leaves the state at ARM and fails the tick; a successful
one records the arm time, starts the ramp and enters RAMP.  In RAMP the
throttle is the linear interpolation from the model-derived initial
throttle to the model-derived target throttle by elapsed fraction of
takeoff_throttle_ramp_duration since ramp_start_time; when the ramp
duration elapses the sequencer holds the target throttle and enters PAUSE.
PAUSE holds that throttle for a settle duration (post_arm_delay) and then
enters DONE.  Calling update in DONE is a caller error and fails.  The
armSuccess argument is the synchronous answer of the external arm command
channel; the function returns the emitted command (none on failure)
together with the sequencer state after the call. -/
def TakeoffController.update (s : TakeoffController) (time : ℚ)
    (battery odom : Option TimedSample) (armSuccess : Bool) :
    Option OrientationThrottleCommand × TakeoffController :=
  match battery, odom with
  | none, _ => (none, s)
  | _, none => (none, s)
  | some b, some o =>
    if time - b.stamp > s.battery_timeout then (none, s)
    else if time - o.stamp > s.update_timeout then (none, s)
    else
      match s.state with
      | TakeoffState.ARM =>
        if armSuccess then
          (some { pitch := 0, roll := 0, yaw := 0, throttle := s.throttle },
           { s with
              state := TakeoffState.RAMP,
              arm_time := time,
              ramp_start_time := time,
              last_update_time := time })
        else (none, s)
      | TakeoffState.RAMP =>
        let initial := s.thrust_model.initialThrottleAt b.value
        let target := s.thrust_model.targetThrottleAt b.value
        if time - s.ramp_start_time ≥ s.takeoff_throttle_ramp_duration then
          (some { pitch := 0, roll := 0, yaw := 0, throttle := target },
           { s with
              state := TakeoffState.PAUSE,
              throttle := target,
              last_update_time := time })
        else
          let th := initial + (target - initial) *
            ((time - s.ramp_start_time) / s.takeoff_throttle_ramp_duration)
          (some { pitch := 0, roll := 0, yaw := 0, throttle := th },
           { s with throttle := th, last_update_time := time })
      | TakeoffState.PAUSE =>
        if time ≥ s.ramp_start_time + s.takeoff_throttle_ramp_duration +
            s.post_arm_delay then
          (some { pitch := 0, roll := 0, yaw := 0, throttle := s.throttle },
           { s with state := TakeoffState.DONE, last_update_time := time })
        else
          (some { pitch := 0, roll := 0, yaw := 0, throttle := s.throttle },
           { s with last_update_time := time })
      | TakeoffState.DONE => (none, s)

/-! ## QuadVelocityController (QuadVelocityController.hpp) -/

/-- The hover feed-forward throttle bias, from QuadVelocityController.hpp
line 85: static constexpr double hover_throttle_{58.0}. -/
def hover_throttle : ℚ := 58

/-- Maximum wait for a transform, from QuadVelocityController.hpp line 99:
static constexpr double MAX_TRANSFORM_WAIT_SECONDS{1.0}. -/
def MAX_TRANSFORM_WAIT_SECONDS : ℚ := 1

/-- Maximum timestamp gap between the two pose samples of a velocity
estimate, from QuadVelocityController.hpp line 100:
static constexpr double MAX_TRANSFORM_DIFFERENCE_SECONDS{0.3}. -/
def MAX_TRANSFORM_DIFFERENCE_SECONDS : ℚ := 3 / 10

/-- One PID parameter array (double[5]) as passed to the constructor. -/
structure PidGains where
  k0 : ℚ
  k1 : ℚ
  k2 : ℚ
  k3 : ℚ
  k4 : ℚ
deriving DecidableEq

/-- Failure reasons of a velocity-estimation tick (spec sections 4.1 and 7):
the not-yet-ready condition is distinct from the other failures. -/
inductive VelError
  | notYetReady
  | zeroTimeDelta
  | sampleGap
deriving DecidableEq

/-- The velocity estimate derived from two pose samples: linear velocity
and yaw rate (spec section 3, VelocitySample). -/
structure VelocityEstimate where
  vx : ℚ
  vy : ℚ
  vz : ℚ
  yawRate : ℚ
deriving DecidableEq

/-- The QuadVelocityController state: the fields of the class in
QuadVelocityController.hpp (the tf2 buffer/listener are the external pose
stream; the FeedForwardPid loops are kept as their parameter arrays since
the control-loop primitive is an external collaborator). -/
structure QuadVelocityController where
  thrust_pid : PidGains
  pitch_pid : PidGains
  roll_pid : PidGains
  yaw_pid : PidGains
  last_transform_stamped : PoseSample
  last_yaw : ℚ
  have_last_velocity_stamped : Bool
  ran_once : Bool
deriving DecidableEq

/-- The constructor QuadVelocityController(double[5], double[5], double[5],
double[5]) from QuadVelocityController.hpp lines 34-37: its only arguments
are the four PID parameter arrays; ran_once starts false so the first tick
has no prior pose sample. -/
def QuadVelocityController.construct
    (thrust_pid pitch_pid roll_pid yaw_pid : PidGains) :
    QuadVelocityController :=
  { thrust_pid := thrust_pid
    pitch_pid := pitch_pid
    roll_pid := roll_pid
    yaw_pid := yaw_pid
    last_transform_stamped := { stamp := 0, x := 0, y := 0, z := 0, yaw := 0 }
    last_yaw := 0
    have_last_velocity_stamped := false
    ran_once := false }

/-- The hover feed-forward bias in effect on an instance: hover_throttle_
is a static constexpr member, so it does not depend on the instance. -/
def QuadVelocityController.hoverThrottle (_s : QuadVelocityController) : ℚ :=
  hover_throttle

/-- The transform wait bound in effect on an instance:
MAX_TRANSFORM_WAIT_SECONDS is a static constexpr member, so it does not
depend on the instance. -/
def QuadVelocityController.maxTransformWait (_s : QuadVelocityController) : ℚ :=
  MAX_TRANSFORM_WAIT_SECONDS

/-- The two-sample gap bound in effect on an instance:
MAX_TRANSFORM_DIFFERENCE_SECONDS is a static constexpr member, so it does
not depend on the instance. -/
def QuadVelocityController.maxTransformDifference
    (_s : QuadVelocityController) : ℚ :=
  MAX_TRANSFORM_DIFFERENCE_SECONDS

/-- Modelled from the spec: wrapping of an angular difference into the
half-open interval (-piv, piv] before dividing by the elapsed time (spec
section 4.1).  The period bound piv is a parameter standing for the real
number pi, which has no rational embedding; the wrap subtracts the unique
integer multiple of 2 piv that lands in the interval. -/
def wrapAngle (piv x : ℚ) : ℚ :=
  x - 2 * piv * ((Int.ceil ((x - piv) / (2 * piv)) : ℤ) : ℚ)

/-- Modelled from the spec: the body of QuadVelocityController::getVelocities
is not under src (only its declaration in QuadVelocityController.hpp is).
Per spec sections 4.1 and 8: a velocity estimate needs two pose samples;
before any prior sample is stored the tick fails as not yet ready; two
samples with equal timestamps fail before any division; samples further
apart than MAX_TRANSFORM_DIFFERENCE_SECONDS fail as a sample gap and drop
the prior sample, so the next tick is again a first tick; otherwise the
linear velocity is the coordinate difference divided by the elapsed time
and the yaw rate is the wrapped yaw difference divided by the elapsed
time.  The function returns the estimate or the failure reason, together
with the controller state after the call. -/
def QuadVelocityController.getVelocities (piv : ℚ)
    (s : QuadVelocityController) (p : PoseSample) :
    Except VelError VelocityEstimate × QuadVelocityController :=
  let store := { s with
    last_transform_stamped := p, last_yaw := p.yaw, ran_once := true }
  if s.ran_once = false then (Except.error VelError.notYetReady, store)
  else
    let dt := p.stamp - s.last_transform_stamped.stamp
    if dt = 0 then (Except.error VelError.zeroTimeDelta, s)
    else if MAX_TRANSFORM_DIFFERENCE_SECONDS < dt then
      (Except.error VelError.sampleGap, { store with ran_once := false })
    else
      (Except.ok
        { vx := (p.x - s.last_transform_stamped.x) / dt
          vy := (p.y - s.last_transform_stamped.y) / dt
          vz := (p.z - s.last_transform_stamped.z) / dt
          yawRate := wrapAngle piv (p.yaw - s.last_yaw) / dt },
       store)

/-! ## Helper lemmas -/

/-- A value clamped to the symmetric interval [-a, a] has magnitude at
most a. -/
lemma abs_clamp_le (x a : ℚ) (ha : 0 ≤ a) : |clamp x (-a) a| ≤ a := by
  rw [abs_le]
  refine ⟨le_max_left _ _, max_le (by linarith) (min_le_left _ _)⟩

/-- Clamping to the degenerate interval [0, 0] yields zero. -/
lemma clamp_zero (x : ℚ) : clamp x 0 0 = 0 :=
  max_eq_left (min_le_left _ _)

/-- Stepping from r toward a target t above it by a clamped increment
neither moves backwards nor overshoots t. -/
lemma clamp_step_up (r t a : ℚ) (ha : 0 ≤ a) (h : r ≤ t) :
    r ≤ r + clamp (t - r) (-a) a ∧ r + clamp (t - r) (-a) a ≤ t := by
  unfold clamp
  constructor
  · have h1 : (0 : ℚ) ≤ max (-a) (min a (t - r)) :=
      le_max_of_le_right (le_min ha (by linarith))
    linarith
  · have h2 : max (-a) (min a (t - r)) ≤ t - r :=
      max_le (by linarith) (min_le_right _ _)
    linarith

/-- Stepping from r toward a target t below it by a clamped increment
neither moves backwards nor overshoots t. -/
lemma clamp_step_down (r t a : ℚ) (ha : 0 ≤ a) (h : t ≤ r) :
    t ≤ r + clamp (t - r) (-a) a ∧ r + clamp (t - r) (-a) a ≤ r := by
  unfold clamp
  have hmin : min a (t - r) = t - r := min_eq_right (by linarith)
  rw [hmin]
  constructor
  · have h1 : t - r ≤ max (-a) (t - r) := le_max_right _ _
    linarith
  · have h2 : max (-a) (t - r) ≤ 0 := max_le (by linarith) (by linarith)
    linarith

/-- The wrapped angle always lies in the half-open interval (-piv, piv]. -/
lemma wrapAngle_bounds (piv x : ℚ) (hpi : 0 < piv) :
    -piv < wrapAngle piv x ∧ wrapAngle piv x ≤ piv := by
  unfold wrapAngle
  have h2 : (0 : ℚ) < 2 * piv := by linarith
  constructor
  · have hlt : ((Int.ceil ((x - piv) / (2 * piv)) : ℤ) : ℚ) <
        (x - piv) / (2 * piv) + 1 := Int.ceil_lt_add_one _
    have h3 : (((Int.ceil ((x - piv) / (2 * piv)) : ℤ) : ℚ) - 1) * (2 * piv)
        < x - piv := by
      rw [← lt_div_iff₀ h2]
      linarith
    nlinarith [h3]
  · have hle : (x - piv) / (2 * piv) ≤
        ((Int.ceil ((x - piv) / (2 * piv)) : ℤ) : ℚ) := Int.le_ceil _
    have h3 : x - piv ≤
        ((Int.ceil ((x - piv) / (2 * piv)) : ℤ) : ℚ) * (2 * piv) := by
      rw [← div_le_iff₀ h2]
      linarith
    nlinarith [h3]

/-- One successful DESCEND tick of the landing sequencer, fully unfolded:
the emitted motion point holds the requested horizontal position and
commands the ramped descent rate, and the post state records the new rate,
the update time, and DONE exactly when the height is at or below the
landing detection height. -/
lemma land_tick_descend (s : LandPlanner) (time : ℚ) (p : PoseSample)
    (hstate : s.state = LandState.DESCEND)
    (hfresh : ¬ time - p.stamp > s.update_timeout) :
    s.getTargetMotionPoint time (some p) =
      (some { cmd := { x := s.requested_x, y := s.requested_y,
                       vz := -(s.nextRate p.z (time - s.last_update_time)) },
              disarmRequested := decide (p.z ≤ s.landing_detected_height) },
       { s with
          state := if p.z ≤ s.landing_detected_height then LandState.DONE
                   else LandState.DESCEND,
          actual_descend_rate := s.nextRate p.z (time - s.last_update_time),
          last_update_time := time }) := by
  simp only [LandPlanner.getTargetMotionPoint, if_neg hfresh, hstate]
  simp

/-- A ramp step over zero elapsed time leaves the descent rate unchanged. -/
lemma nextRate_zero_dt (s : LandPlanner) (h : ℚ) :
    s.nextRate h 0 = s.actual_descend_rate := by
  simp [LandPlanner.nextRate, clamp_zero]

/-- A concrete landing-sequencer state used to instantiate the theorems:
mid-descent above the cushion height. -/
def landSample : LandPlanner :=
  { state := LandState.DESCEND
    requested_x := 2
    requested_y := 3
    requested_height := 10
    cushion_height := 1
    actual_descend_rate := 0
    descend_rate := 1
    cushion_rate := 1/4
    descend_acceleration := 2
    cushion_acceleration := 1
    landing_detected_height := 1/10
    last_update_time := 0
    startup_timeout := 10
    update_timeout := 1 }

/-- A concrete pose sample above the cushion height. -/
def poseHigh : PoseSample := { stamp := 1/2, x := 0, y := 0, z := 2, yaw := 0 }

/-- A concrete pose sample at or below the landing detection height. -/
def poseLow : PoseSample := { stamp := 1, x := 0, y := 0, z := 1/20, yaw := 0 }

/-- C4: on every successful LandPlanner tick with elapsed time dt the
descent rate changes by exactly clamp(target - rate, plus or minus
acceleration times dt), where the target and acceleration are the cushion
pair at or below cushion_height and the descend pair above it; the change
never exceeds acceleration times dt in magnitude and the rate approaches
the active target monotonically without overshoot. -/
theorem C4_descend_rate_ramp (s : LandPlanner) (time : ℚ) (p : PoseSample)
    (hstate : s.state = LandState.DESCEND)
    (hfresh : ¬ time - p.stamp > s.update_timeout)
    (hacc : 0 ≤ s.targetAccel p.z)
    (hdt : 0 ≤ time - s.last_update_time) :
    (s.getTargetMotionPoint time (some p)).1.isSome = true ∧
    (s.getTargetMotionPoint time (some p)).2.actual_descend_rate -
        s.actual_descend_rate =
      clamp (s.targetRate p.z - s.actual_descend_rate)
        (-(s.targetAccel p.z * (time - s.last_update_time)))
        (s.targetAccel p.z * (time - s.last_update_time)) ∧
    |(s.getTargetMotionPoint time (some p)).2.actual_descend_rate -
        s.actual_descend_rate| ≤
      s.targetAccel p.z * (time - s.last_update_time) ∧
    (s.actual_descend_rate ≤ s.targetRate p.z →
      s.actual_descend_rate ≤
          (s.getTargetMotionPoint time (some p)).2.actual_descend_rate ∧
        (s.getTargetMotionPoint time (some p)).2.actual_descend_rate ≤
          s.targetRate p.z) ∧
    (s.targetRate p.z ≤ s.actual_descend_rate →
      s.targetRate p.z ≤
          (s.getTargetMotionPoint time (some p)).2.actual_descend_rate ∧
        (s.getTargetMotionPoint time (some p)).2.actual_descend_rate ≤
          s.actual_descend_rate) := by
  rw [land_tick_descend s time p hstate hfresh]
  have hA : 0 ≤ s.targetAccel p.z * (time - s.last_update_time) :=
    mul_nonneg hacc hdt
  refine ⟨rfl, ?_, ?_, ?_, ?_⟩
  · simp [LandPlanner.nextRate]
  · have h := abs_clamp_le (s.targetRate p.z - s.actual_descend_rate) _ hA
    simpa [LandPlanner.nextRate] using h
  · intro h
    have h2 := clamp_step_up s.actual_descend_rate (s.targetRate p.z) _ hA h
    simpa [LandPlanner.nextRate] using h2
  · intro h
    have h2 := clamp_step_down s.actual_descend_rate (s.targetRate p.z) _ hA h
    simpa [LandPlanner.nextRate] using h2

/-- Witness for C4 at the concrete state landSample, time 1/2 and the pose
sample poseHigh. -/
theorem C4_descend_rate_ramp_witness :
    (landSample.state = LandState.DESCEND ∧
      ¬ (1/2 : ℚ) - poseHigh.stamp > landSample.update_timeout ∧
      0 ≤ landSample.targetAccel poseHigh.z ∧
      0 ≤ (1/2 : ℚ) - landSample.last_update_time) ∧
    ((landSample.getTargetMotionPoint (1/2) (some poseHigh)).1.isSome = true ∧
      (landSample.getTargetMotionPoint (1/2) (some poseHigh)).2.actual_descend_rate -
          landSample.actual_descend_rate =
        clamp (landSample.targetRate poseHigh.z - landSample.actual_descend_rate)
          (-(landSample.targetAccel poseHigh.z *
              ((1/2 : ℚ) - landSample.last_update_time)))
          (landSample.targetAccel poseHigh.z *
            ((1/2 : ℚ) - landSample.last_update_time)) ∧
      |(landSample.getTargetMotionPoint (1/2) (some poseHigh)).2.actual_descend_rate -
          landSample.actual_descend_rate| ≤
        landSample.targetAccel poseHigh.z *
          ((1/2 : ℚ) - landSample.last_update_time) ∧
      (landSample.actual_descend_rate ≤ landSample.targetRate poseHigh.z →
        landSample.actual_descend_rate ≤
            (landSample.getTargetMotionPoint (1/2)
              (some poseHigh)).2.actual_descend_rate ∧
          (landSample.getTargetMotionPoint (1/2)
              (some poseHigh)).2.actual_descend_rate ≤
            landSample.targetRate poseHigh.z) ∧
      (landSample.targetRate poseHigh.z ≤ landSample.actual_descend_rate →
        landSample.targetRate poseHigh.z ≤
            (landSample.getTargetMotionPoint (1/2)
              (some poseHigh)).2.actual_descend_rate ∧
          (landSample.getTargetMotionPoint (1/2)
              (some poseHigh)).2.actual_descend_rate ≤
            landSample.actual_descend_rate)) :=
  ⟨⟨rfl, by norm_num [poseHigh, landSample],
    by norm_num [landSample, poseHigh, LandPlanner.targetAccel],
    by norm_num [landSample]⟩,
   C4_descend_rate_ramp landSample (1/2) poseHigh rfl
     (by norm_num [poseHigh, landSample])
     (by norm_num [landSample, poseHigh, LandPlanner.targetAccel])
     (by norm_num [landSample])⟩

/-- C5: on a fresh DESCEND tick, a measured height at or below
landing_detected_height (the bound is inclusive: equality counts as landed)
transitions the planner to DONE, issues a disarm request through the
command interface, and makes isDone return true; a height strictly above
the bound keeps the planner descending. -/
theorem C5_landing_boundary (s : LandPlanner) (time : ℚ) (p : PoseSample)
    (hstate : s.state = LandState.DESCEND)
    (hfresh : ¬ time - p.stamp > s.update_timeout) :
    (p.z ≤ s.landing_detected_height →
      (s.getTargetMotionPoint time (some p)).2.state = LandState.DONE ∧
      (s.getTargetMotionPoint time (some p)).2.isDone = true ∧
      ∃ out, (s.getTargetMotionPoint time (some p)).1 = some out ∧
        out.disarmRequested = true) ∧
    (p.z = s.landing_detected_height →
      (s.getTargetMotionPoint time (some p)).2.state = LandState.DONE) ∧
    (s.landing_detected_height < p.z →
      (s.getTargetMotionPoint time (some p)).2.state = LandState.DESCEND ∧
      (s.getTargetMotionPoint time (some p)).2.isDone = false) := by
  rw [land_tick_descend s time p hstate hfresh]
  refine ⟨?_, ?_, ?_⟩
  · intro h
    refine ⟨by simp [h], by simp [LandPlanner.isDone, h], ?_⟩
    exact ⟨_, rfl, by simp [h]⟩
  · intro h
    simp [h.le]
  · intro h
    constructor
    · simp [not_le.mpr h]
    · simp [LandPlanner.isDone, not_le.mpr h]

/-- Witness for C5 at the concrete state landSample, time 1 and the pose
sample poseLow, whose height 1/20 is below the detection height 1/10. -/
theorem C5_landing_boundary_witness :
    (landSample.state = LandState.DESCEND ∧
      ¬ (1 : ℚ) - poseLow.stamp > landSample.update_timeout) ∧
    ((poseLow.z ≤ landSample.landing_detected_height →
      (landSample.getTargetMotionPoint 1 (some poseLow)).2.state = LandState.DONE ∧
      (landSample.getTargetMotionPoint 1 (some poseLow)).2.isDone = true ∧
      ∃ out, (landSample.getTargetMotionPoint 1 (some poseLow)).1 = some out ∧
        out.disarmRequested = true) ∧
    (poseLow.z = landSample.landing_detected_height →
      (landSample.getTargetMotionPoint 1 (some poseLow)).2.state = LandState.DONE) ∧
    (landSample.landing_detected_height < poseLow.z →
      (landSample.getTargetMotionPoint 1 (some poseLow)).2.state = LandState.DESCEND ∧
      (landSample.getTargetMotionPoint 1 (some poseLow)).2.isDone = false)) :=
  ⟨⟨rfl, by norm_num [poseLow, landSample]⟩,
   C5_landing_boundary landSample 1 poseLow rfl (by norm_num [poseLow, landSample])⟩

/-- The concrete thrust model of the spec scenario: initial throttle 40 and
target throttle 55 at any battery voltage. -/
def thrustModelSample : ThrustModel :=
  { initialThrottleAt := fun _ => 40, targetThrottleAt := fun _ => 55 }

/-- A concrete takeoff-sequencer state in the ARM state. -/
def takeoffArm : TakeoffController :=
  { state := TakeoffState.ARM
    throttle := 0
    thrust_model := thrustModelSample
    post_arm_delay := 1
    takeoff_throttle_ramp_duration := 2
    last_update_time := 0
    startup_timeout := 10
    update_timeout := 1
    battery_timeout := 1
    arm_time := 0
    ramp_start_time := 0 }

/-- The same sequencer mid-ramp: armed at time 0, ramp started at time 0. -/
def takeoffRamp : TakeoffController :=
  { takeoffArm with state := TakeoffState.RAMP }

/-- A fresh battery sample at time 1 reading 12.0 volts. -/
def batterySample : TimedSample := { stamp := 1, value := 12 }

/-- A fresh odometry sample at time 1. -/
def odomSample : TimedSample := { stamp := 1, value := 0 }

/-- A stale battery sample from time 0 (stale at request time 5). -/
def staleBattery : TimedSample := { stamp := 0, value := 12 }

/-- C1: a missing or stale required input sample fails the tick, emits no
command and leaves the sequencer state unchanged: for
TakeoffController::update a missing battery or odometry sample, a battery
sample older than battery_timeout, or an odometry sample older than
update_timeout; for LandPlanner::getTargetMotionPoint a missing pose or a
pose older than update_timeout. -/
theorem C1_stale_input_fails_tick
    (s : TakeoffController) (time : ℚ) (battery odom : Option TimedSample)
    (arm : Bool) (sl : LandPlanner) (tl : ℚ) (pose : Option PoseSample)
    (hbad : battery = none ∨ odom = none ∨
      (∃ b, battery = some b ∧ time - b.stamp > s.battery_timeout) ∨
      (∃ o, odom = some o ∧ time - o.stamp > s.update_timeout))
    (hbadl : pose = none ∨
      ∃ p, pose = some p ∧ tl - p.stamp > sl.update_timeout) :
    s.update time battery odom arm = (none, s) ∧
    sl.getTargetMotionPoint tl pose = (none, sl) := by
  constructor
  · rcases hbad with h | h | ⟨b, hb, hstale⟩ | ⟨o, ho, hstale⟩
    · subst h
      cases odom <;> rfl
    · subst h
      cases battery <;> rfl
    · subst hb
      cases odom with
      | none => rfl
      | some o => simp [TakeoffController.update, hstale]
    · subst ho
      cases battery with
      | none => rfl
      | some b =>
        by_cases hbs : time - b.stamp > s.battery_timeout <;>
          simp [TakeoffController.update, hbs, hstale]
  · rcases hbadl with h | ⟨p, hp, hstale⟩
    · subst h
      rfl
    · subst hp
      simp [LandPlanner.getTargetMotionPoint, hstale]

/-- Witness for C1: the takeoff sequencer at time 5 with a battery sample
from time 0 (older than the 1 second battery timeout) and the landing
sequencer at time 5 with a pose sample from time 1/2 (older than the
1 second update timeout). -/
theorem C1_stale_input_fails_tick_witness :
    ((some staleBattery = none ∨ (some odomSample : Option TimedSample) = none ∨
      (∃ b, some staleBattery = some b ∧
        (5 : ℚ) - b.stamp > takeoffArm.battery_timeout) ∨
      (∃ o, some odomSample = some o ∧
        (5 : ℚ) - o.stamp > takeoffArm.update_timeout)) ∧
     (some poseHigh = none ∨
      ∃ p, some poseHigh = some p ∧
        (5 : ℚ) - p.stamp > landSample.update_timeout)) ∧
    takeoffArm.update 5 (some staleBattery) (some odomSample) true =
      (none, takeoffArm) ∧
    landSample.getTargetMotionPoint 5 (some poseHigh) = (none, landSample) :=
  ⟨⟨Or.inr (Or.inr (Or.inl ⟨staleBattery, rfl,
      by norm_num [staleBattery, takeoffArm]⟩)),
    Or.inr ⟨poseHigh, rfl, by norm_num [poseHigh, landSample]⟩⟩,
   C1_stale_input_fails_tick takeoffArm 5 (some staleBattery) (some odomSample)
     true landSample 5 (some poseHigh)
     (Or.inr (Or.inr (Or.inl ⟨staleBattery, rfl,
       by norm_num [staleBattery, takeoffArm]⟩)))
     (Or.inr ⟨poseHigh, rfl, by norm_num [poseHigh, landSample]⟩)⟩

/-- C3: on any tick with fresh battery and odometry samples, the takeoff
state only advances along ARM, RAMP, PAUSE, DONE by at most one step and
never moves backwards; from ARM a failed arm request leaves the state at
ARM with a failed tick and isDone false, a successful arm request enters
RAMP; and from RAMP the next state is RAMP or PAUSE, so PAUSE is never
skipped before DONE. -/
theorem C3_takeoff_state_machine (s : TakeoffController) (time : ℚ)
    (b o : TimedSample) (arm : Bool)
    (hb : ¬ time - b.stamp > s.battery_timeout)
    (ho : ¬ time - o.stamp > s.update_timeout) :
    (s.state.rank ≤ (s.update time (some b) (some o) arm).2.state.rank ∧
      (s.update time (some b) (some o) arm).2.state.rank ≤ s.state.rank + 1) ∧
    (s.state = TakeoffState.ARM → arm = false →
      s.update time (some b) (some o) arm = (none, s) ∧
      (s.update time (some b) (some o) arm).2.isDone = false) ∧
    (s.state = TakeoffState.ARM → arm = true →
      (s.update time (some b) (some o) arm).2.state = TakeoffState.RAMP) ∧
    (s.state = TakeoffState.RAMP →
      (s.update time (some b) (some o) arm).2.state = TakeoffState.RAMP ∨
      (s.update time (some b) (some o) arm).2.state = TakeoffState.PAUSE) ∧
    (s.state = TakeoffState.PAUSE →
      (s.update time (some b) (some o) arm).2.state = TakeoffState.PAUSE ∨
      (s.update time (some b) (some o) arm).2.state = TakeoffState.DONE) := by
  simp only [TakeoffController.update, if_neg hb, if_neg ho]
  cases hst : s.state with
  | ARM =>
    cases arm <;>
      simp [hst, TakeoffState.rank, TakeoffController.isDone]
  | RAMP =>
    by_cases hr : time - s.ramp_start_time ≥ s.takeoff_throttle_ramp_duration <;>
      simp [hst, hr, TakeoffState.rank]
  | PAUSE =>
    by_cases hp : time ≥ s.ramp_start_time + s.takeoff_throttle_ramp_duration +
        s.post_arm_delay <;>
      simp [hst, hp, TakeoffState.rank]
  | DONE =>
    simp [hst, TakeoffState.rank]

/-- Witness for C3: the takeoff sequencer in ARM at time 1 with fresh
battery and odometry samples and a failed arm request. -/
theorem C3_takeoff_state_machine_witness :
    (¬ (1 : ℚ) - batterySample.stamp > takeoffArm.battery_timeout ∧
      ¬ (1 : ℚ) - odomSample.stamp > takeoffArm.update_timeout) ∧
    ((takeoffArm.state.rank ≤
        (takeoffArm.update 1 (some batterySample) (some odomSample)
          false).2.state.rank ∧
      (takeoffArm.update 1 (some batterySample) (some odomSample)
          false).2.state.rank ≤ takeoffArm.state.rank + 1) ∧
    (takeoffArm.state = TakeoffState.ARM → false = false →
      takeoffArm.update 1 (some batterySample) (some odomSample) false =
        (none, takeoffArm) ∧
      (takeoffArm.update 1 (some batterySample) (some odomSample)
          false).2.isDone = false) ∧
    (takeoffArm.state = TakeoffState.ARM → false = true →
      (takeoffArm.update 1 (some batterySample) (some odomSample)
          false).2.state = TakeoffState.RAMP) ∧
    (takeoffArm.state = TakeoffState.RAMP →
      (takeoffArm.update 1 (some batterySample) (some odomSample)
          false).2.state = TakeoffState.RAMP ∨
      (takeoffArm.update 1 (some batterySample) (some odomSample)
          false).2.state = TakeoffState.PAUSE) ∧
    (takeoffArm.state = TakeoffState.PAUSE →
      (takeoffArm.update 1 (some batterySample) (some odomSample)
          false).2.state = TakeoffState.PAUSE ∨
      (takeoffArm.update 1 (some batterySample) (some odomSample)
          false).2.state = TakeoffState.DONE)) :=
  ⟨⟨by norm_num [batterySample, takeoffArm],
    by norm_num [odomSample, takeoffArm]⟩,
   C3_takeoff_state_machine takeoffArm 1 batterySample odomSample false
     (by norm_num [batterySample, takeoffArm])
     (by norm_num [odomSample, takeoffArm])⟩

/-- C6: during RAMP with fresh inputs and the ramp duration not yet
elapsed, the commanded throttle is the linear interpolation from the
model-derived initial throttle to the model-derived target throttle by the
fraction of the ramp duration elapsed since ramp_start_time, and the
sequencer stays in RAMP. -/
theorem C6_ramp_linear_interpolation (s : TakeoffController) (time : ℚ)
    (b o : TimedSample) (arm : Bool)
    (hstate : s.state = TakeoffState.RAMP)
    (hb : ¬ time - b.stamp > s.battery_timeout)
    (ho : ¬ time - o.stamp > s.update_timeout)
    (hramp : ¬ time - s.ramp_start_time ≥ s.takeoff_throttle_ramp_duration) :
    (s.update time (some b) (some o) arm).1 =
      some { pitch := 0, roll := 0, yaw := 0,
             throttle := s.thrust_model.initialThrottleAt b.value +
               (s.thrust_model.targetThrottleAt b.value -
                 s.thrust_model.initialThrottleAt b.value) *
               ((time - s.ramp_start_time) /
                 s.takeoff_throttle_ramp_duration) } ∧
    (s.update time (some b) (some o) arm).2.state = TakeoffState.RAMP := by
  simp only [TakeoffController.update, if_neg hb, if_neg ho, hstate,
    if_neg hramp]
  refine ⟨?_, ?_⟩ <;> first
    | rfl
    | trivial

/-- Witness for C6, the spec scenario: battery reads 12.0 volts, the thrust
model gives initial throttle 40 and target throttle 55, the ramp lasts
2 seconds and started at the arm time 0; at time 1 the commanded throttle
is 47.5 = 95/2. -/
theorem C6_ramp_linear_interpolation_witness :
    (takeoffRamp.state = TakeoffState.RAMP ∧
      ¬ (1 : ℚ) - batterySample.stamp > takeoffRamp.battery_timeout ∧
      ¬ (1 : ℚ) - odomSample.stamp > takeoffRamp.update_timeout ∧
      ¬ (1 : ℚ) - takeoffRamp.ramp_start_time ≥
        takeoffRamp.takeoff_throttle_ramp_duration ∧
      takeoffRamp.arm_time = 0 ∧ batterySample.value = 12) ∧
    (takeoffRamp.update 1 (some batterySample) (some odomSample) false).1 =
      some { pitch := 0, roll := 0, yaw := 0, throttle := 95/2 } :=
  ⟨⟨rfl, by norm_num [batterySample, takeoffRamp, takeoffArm],
    by norm_num [odomSample, takeoffRamp, takeoffArm],
    by norm_num [takeoffRamp, takeoffArm], rfl, rfl⟩,
   by
    have h := (C6_ramp_linear_interpolation takeoffRamp 1 batterySample
      odomSample false rfl
      (by norm_num [batterySample, takeoffRamp, takeoffArm])
      (by norm_num [odomSample, takeoffRamp, takeoffArm])
      (by norm_num [takeoffRamp, takeoffArm])).1
    rw [h]
    norm_num [takeoffRamp, takeoffArm, thrustModelSample]⟩

/-- Trivial PID gains for the concrete controller instances. -/
def pidZero : PidGains := { k0 := 0, k1 := 0, k2 := 0, k3 := 0, k4 := 0 }

/-- A concrete velocity-controller state that has already stored a pose
sample at time 0 (position and yaw all zero). -/
def qvcReady : QuadVelocityController :=
  { QuadVelocityController.construct pidZero pidZero pidZero pidZero with
    ran_once := true }

/-- A pose sample 1/10 second after the stored one and 1/20 meter further
along x, with yaw 7 (more than a full wrap period for piv = 3). -/
def poseStep : PoseSample := { stamp := 1/10, x := 1/20, y := 0, z := 0, yaw := 7 }

/-- A pose sample with the same timestamp as the stored one. -/
def poseSame : PoseSample := { stamp := 0, x := 5, y := 5, z := 5, yaw := 5 }

/-- A pose sample a full second after the stored one: beyond the maximum
two-sample gap. -/
def poseFar : PoseSample := { stamp := 1, x := 0, y := 0, z := 0, yaw := 0 }

/-- C2: for two pose samples with a positive timestamp difference of at
most MAX_TRANSFORM_DIFFERENCE_SECONDS, getVelocities returns linear
velocity exactly (p2 - p1) / (t2 - t1) per coordinate, and yaw rate equal
to the yaw difference wrapped into (-piv, piv] divided by the elapsed time,
which therefore always lies in (-piv/dt, piv/dt]. -/
theorem C2_two_sample_velocity (piv : ℚ) (s : QuadVelocityController)
    (p : PoseSample) (hpi : 0 < piv) (hran : s.ran_once = true)
    (hlt : s.last_transform_stamped.stamp < p.stamp)
    (hgap : p.stamp - s.last_transform_stamped.stamp ≤
      MAX_TRANSFORM_DIFFERENCE_SECONDS) :
    (s.getVelocities piv p).1 =
      Except.ok
        { vx := (p.x - s.last_transform_stamped.x) /
            (p.stamp - s.last_transform_stamped.stamp)
          vy := (p.y - s.last_transform_stamped.y) /
            (p.stamp - s.last_transform_stamped.stamp)
          vz := (p.z - s.last_transform_stamped.z) /
            (p.stamp - s.last_transform_stamped.stamp)
          yawRate := wrapAngle piv (p.yaw - s.last_yaw) /
            (p.stamp - s.last_transform_stamped.stamp) } ∧
    -(piv / (p.stamp - s.last_transform_stamped.stamp)) <
      wrapAngle piv (p.yaw - s.last_yaw) /
        (p.stamp - s.last_transform_stamped.stamp) ∧
    wrapAngle piv (p.yaw - s.last_yaw) /
        (p.stamp - s.last_transform_stamped.stamp) ≤
      piv / (p.stamp - s.last_transform_stamped.stamp) := by
  have hdt : 0 < p.stamp - s.last_transform_stamped.stamp := by linarith
  have hne : p.stamp - s.last_transform_stamped.stamp ≠ 0 := ne_of_gt hdt
  have hb := wrapAngle_bounds piv (p.yaw - s.last_yaw) hpi
  refine ⟨?_, ?_, ?_⟩
  · simp [QuadVelocityController.getVelocities, hran, hne, not_lt.mpr hgap]
  · have h := (div_lt_div_iff_of_pos_right hdt).mpr hb.1
    rwa [neg_div] at h
  · exact (div_le_div_iff_of_pos_right hdt).mpr hb.2

/-- Witness for C2 at piv = 3, the ready controller and the pose sample
poseStep: dt = 1/10, so vx = (1/20) / (1/10) = 1/2, and the yaw difference
7 wraps to 1, giving yaw rate 10 inside (-30, 30]. -/
theorem C2_two_sample_velocity_witness :
    ((0 : ℚ) < 3 ∧ qvcReady.ran_once = true ∧
      qvcReady.last_transform_stamped.stamp < poseStep.stamp ∧
      poseStep.stamp - qvcReady.last_transform_stamped.stamp ≤
        MAX_TRANSFORM_DIFFERENCE_SECONDS) ∧
    ((qvcReady.getVelocities 3 poseStep).1 =
      Except.ok
        { vx := (poseStep.x - qvcReady.last_transform_stamped.x) /
            (poseStep.stamp - qvcReady.last_transform_stamped.stamp)
          vy := (poseStep.y - qvcReady.last_transform_stamped.y) /
            (poseStep.stamp - qvcReady.last_transform_stamped.stamp)
          vz := (poseStep.z - qvcReady.last_transform_stamped.z) /
            (poseStep.stamp - qvcReady.last_transform_stamped.stamp)
          yawRate := wrapAngle 3 (poseStep.yaw - qvcReady.last_yaw) /
            (poseStep.stamp - qvcReady.last_transform_stamped.stamp) } ∧
    -((3 : ℚ) / (poseStep.stamp - qvcReady.last_transform_stamped.stamp)) <
      wrapAngle 3 (poseStep.yaw - qvcReady.last_yaw) /
        (poseStep.stamp - qvcReady.last_transform_stamped.stamp) ∧
    wrapAngle 3 (poseStep.yaw - qvcReady.last_yaw) /
        (poseStep.stamp - qvcReady.last_transform_stamped.stamp) ≤
      (3 : ℚ) / (poseStep.stamp - qvcReady.last_transform_stamped.stamp)) :=
  ⟨⟨by norm_num, rfl,
    by norm_num [qvcReady, QuadVelocityController.construct, poseStep],
    by norm_num [qvcReady, QuadVelocityController.construct, poseStep,
      MAX_TRANSFORM_DIFFERENCE_SECONDS]⟩,
   C2_two_sample_velocity 3 qvcReady poseStep (by norm_num) rfl
     (by norm_num [qvcReady, QuadVelocityController.construct, poseStep])
     (by norm_num [qvcReady, QuadVelocityController.construct, poseStep,
       MAX_TRANSFORM_DIFFERENCE_SECONDS])⟩

/-- C7: two pose samples with equal timestamps make velocity estimation
fail with the zero-elapsed-time failure, which guards the division: the
controller state is returned unchanged, so no quantity derived from a
division by the zero elapsed time is stored or emitted. -/
theorem C7_equal_timestamps_fail (piv : ℚ) (s : QuadVelocityController)
    (p : PoseSample) (hran : s.ran_once = true)
    (heq : p.stamp = s.last_transform_stamped.stamp) :
    (s.getVelocities piv p).1 = Except.error VelError.zeroTimeDelta ∧
    (s.getVelocities piv p).2 = s := by
  have h0 : p.stamp - s.last_transform_stamped.stamp = 0 := by
    rw [heq]
    ring
  constructor <;> simp [QuadVelocityController.getVelocities, hran, h0]

/-- Witness for C7 at piv = 3, the ready controller and the pose sample
poseSame, whose timestamp equals the stored timestamp 0. -/
theorem C7_equal_timestamps_fail_witness :
    (qvcReady.ran_once = true ∧
      poseSame.stamp = qvcReady.last_transform_stamped.stamp) ∧
    (qvcReady.getVelocities 3 poseSame).1 =
      Except.error VelError.zeroTimeDelta ∧
    (qvcReady.getVelocities 3 poseSame).2 = qvcReady :=
  ⟨⟨rfl, rfl⟩, C7_equal_timestamps_fail 3 qvcReady poseSame rfl rfl⟩

/-- C8: the first velocity tick after construction fails because no prior
pose sample exists, and likewise the first tick after a sample gap (the
gap tick drops the stored sample); in both cases the failure is the
dedicated not-yet-ready condition, a constructor distinct from the other
failure reasons, so the caller can tell it from a fatal error. -/
theorem C8_first_tick_not_ready (piv : ℚ) (tp pp rp yp : PidGains)
    (p q : PoseSample) (s : QuadVelocityController)
    (hran : s.ran_once = true)
    (hgap : MAX_TRANSFORM_DIFFERENCE_SECONDS <
      q.stamp - s.last_transform_stamped.stamp) :
    ((QuadVelocityController.construct tp pp rp yp).getVelocities piv p).1 =
      Except.error VelError.notYetReady ∧
    ((s.getVelocities piv q).2.getVelocities piv p).1 =
      Except.error VelError.notYetReady ∧
    VelError.notYetReady ≠ VelError.zeroTimeDelta ∧
    VelError.notYetReady ≠ VelError.sampleGap := by
  refine ⟨?_, ?_, by decide, by decide⟩
  · simp [QuadVelocityController.getVelocities,
      QuadVelocityController.construct]
  · have hne : q.stamp - s.last_transform_stamped.stamp ≠ 0 := by
      intro h
      rw [h] at hgap
      norm_num [MAX_TRANSFORM_DIFFERENCE_SECONDS] at hgap
    simp [QuadVelocityController.getVelocities, hran, hne, hgap]

/-- Witness for C8 at piv = 3: a freshly constructed controller ticked with
poseStep, and the ready controller ticked with poseFar (gap 1 second) and
then with poseStep. -/
theorem C8_first_tick_not_ready_witness :
    (qvcReady.ran_once = true ∧
      MAX_TRANSFORM_DIFFERENCE_SECONDS <
        poseFar.stamp - qvcReady.last_transform_stamped.stamp) ∧
    (((QuadVelocityController.construct pidZero pidZero pidZero
        pidZero).getVelocities 3 poseStep).1 =
      Except.error VelError.notYetReady ∧
    ((qvcReady.getVelocities 3 poseFar).2.getVelocities 3 poseStep).1 =
      Except.error VelError.notYetReady ∧
    VelError.notYetReady ≠ VelError.zeroTimeDelta ∧
    VelError.notYetReady ≠ VelError.sampleGap) :=
  ⟨⟨rfl, by norm_num [qvcReady, QuadVelocityController.construct, poseFar,
      MAX_TRANSFORM_DIFFERENCE_SECONDS]⟩,
   C8_first_tick_not_ready 3 pidZero pidZero pidZero pidZero poseStep poseFar
     qvcReady rfl
     (by norm_num [qvcReady, QuadVelocityController.construct, poseFar,
       MAX_TRANSFORM_DIFFERENCE_SECONDS])⟩

/-- C10: the hover feed-forward bias (58.0), the maximum transform wait
(1.0 s) and the maximum two-sample gap (0.3 s) are static compile-time
constants: the value in effect on any instance equals the literal from the
header and coincides across any two instances, and the constructor
consumes exactly the four PID parameter arrays, so no constructor argument
can change these values. -/
theorem C10_static_constants (s1 s2 : QuadVelocityController)
    (g1 g2 g3 g4 : PidGains) :
    s1.hoverThrottle = 58 ∧
    s1.maxTransformWait = 1 ∧
    s1.maxTransformDifference = 3/10 ∧
    s1.hoverThrottle = s2.hoverThrottle ∧
    s1.maxTransformWait = s2.maxTransformWait ∧
    s1.maxTransformDifference = s2.maxTransformDifference ∧
    (QuadVelocityController.construct g1 g2 g3 g4).hoverThrottle = 58 ∧
    (QuadVelocityController.construct g1 g2 g3 g4).maxTransformWait = 1 ∧
    (QuadVelocityController.construct g1 g2 g3 g4).maxTransformDifference
      = 3/10 ∧
    (QuadVelocityController.construct g1 g2 g3 g4).thrust_pid = g1 ∧
    (QuadVelocityController.construct g1 g2 g3 g4).pitch_pid = g2 ∧
    (QuadVelocityController.construct g1 g2 g3 g4).roll_pid = g3 ∧
    (QuadVelocityController.construct g1 g2 g3 g4).yaw_pid = g4 :=
  ⟨rfl, rfl, rfl, rfl, rfl, rfl, rfl, rfl, rfl, rfl, rfl, rfl, rfl⟩

/-- The commanded velocity passed to setTargetVelocity
(geometry_msgs::Twist, collapsed to the scalars the four control loops
consume): linear velocity and yaw rate.  update reads the target in effect
on the tick, so it is an argument of the embedded tick function. -/
structure Twist where
  vx : ℚ
  vy : ℚ
  vz : ℚ
  yawRate : ℚ
deriving DecidableEq

/-- The externally-specified feed-forward control-loop primitives (spec
section 6; FeedForwardPid.hpp is not under src): each step consumes the
commanded scalar, the measured scalar and the elapsed time and produces a
correction. -/
structure ControlLoops where
  thrustStep : ℚ → ℚ → ℚ → ℚ
  pitchStep : ℚ → ℚ → ℚ → ℚ
  rollStep : ℚ → ℚ → ℚ → ℚ
  yawStep : ℚ → ℚ → ℚ → ℚ

/-- Modelled from the spec: the body of QuadVelocityController::update is
not under src (only its declaration in QuadVelocityController.hpp is).
Per spec sections 4.1 and 6 and the getTransformAfterTime declaration: the
tick consumes the pose sample the provider returned for the request time
(none if the provider timed out; a sample from before the request time is
the provider failing its at-or-after contract and fails the tick), derives
the velocity estimate from the stored and the new sample via getVelocities
and fails the tick when the estimate fails; on success the four
feed-forward loops turn the commanded-versus-estimated velocities into the
attitude and throttle command, the thrust channel adding the fixed hover
feed-forward bias before its correction.  The function returns the command
(none on failure) together with the controller state after the call. -/
def QuadVelocityController.update (piv : ℚ) (loops : ControlLoops)
    (target : Twist) (s : QuadVelocityController) (time : ℚ)
    (pose : Option PoseSample) :
    Option OrientationThrottleCommand × QuadVelocityController :=
  match pose with
  | none => (none, s)
  | some p =>
    if p.stamp < time then (none, s)
    else
      let dt := p.stamp - s.last_transform_stamped.stamp
      match s.getVelocities piv p with
      | (Except.error _, s2) => (none, s2)
      | (Except.ok v, s2) =>
        (some { pitch := loops.pitchStep target.vx v.vx dt
                roll := loops.rollStep target.vy v.vy dt
                yaw := loops.yawStep target.yawRate v.yawRate dt
                throttle := hover_throttle +
                  loops.thrustStep target.vz v.vz dt },
         s2)

/-- Control loops returning a zero correction on every channel, for the
concrete instantiations. -/
def loopsZero : ControlLoops :=
  { thrustStep := fun _ _ _ => 0
    pitchStep := fun _ _ _ => 0
    rollStep := fun _ _ _ => 0
    yawStep := fun _ _ _ => 0 }

/-- The zero commanded velocity. -/
def twistZero : Twist := { vx := 0, vy := 0, vz := 0, yawRate := 0 }

/-- A successful velocity estimate leaves the controller holding the pose
sample it consumed as the stored sample. -/
lemma getVelocities_ok_state (piv : ℚ) (s : QuadVelocityController)
    (p : PoseSample) (h : ∃ v, (s.getVelocities piv p).1 = Except.ok v) :
    (s.getVelocities piv p).2 =
      { s with last_transform_stamped := p, last_yaw := p.yaw,
               ran_once := true } := by
  obtain ⟨v, hv⟩ := h
  by_cases h1 : s.ran_once = false
  · simp [QuadVelocityController.getVelocities, h1] at hv
  · by_cases h2 : p.stamp - s.last_transform_stamped.stamp = 0
    · simp [QuadVelocityController.getVelocities, h1, h2] at hv
    · by_cases h3 : MAX_TRANSFORM_DIFFERENCE_SECONDS <
          p.stamp - s.last_transform_stamped.stamp
      · simp [QuadVelocityController.getVelocities, h1, h2, h3] at hv
      · simp [QuadVelocityController.getVelocities, h1, h2, h3]

/-- A successful velocity-controller tick stores the pose sample it used. -/
lemma qvc_update_some_state (piv : ℚ) (loops : ControlLoops)
    (target : Twist) (s : QuadVelocityController) (time : ℚ)
    (p : PoseSample)
    (h : (QuadVelocityController.update piv loops target s time
      (some p)).1.isSome = true) :
    (QuadVelocityController.update piv loops target s time (some p)).2 =
      { s with last_transform_stamped := p, last_yaw := p.yaw,
               ran_once := true } := by
  by_cases ht : p.stamp < time
  · simp [QuadVelocityController.update, ht] at h
  · simp only [QuadVelocityController.update, if_neg ht] at h ⊢
    rcases hgv : s.getVelocities piv p with ⟨res, s2⟩
    rw [hgv] at h
    cases res with
    | error e => simp at h
    | ok v =>
      have h2 := getVelocities_ok_state piv s p ⟨v, by rw [hgv]⟩
      rw [hgv] at h2
      simpa using h2

/-- C9 counterexample, one concrete input per per-tick query.  LandPlanner:
at landSample and poseLow (height below the detection height) the first
call at time 1 succeeds and lands, while the second call with the same
time and sample is in the terminal DONE state and emits no command.
QuadVelocityController: at the ready controller and poseStep the first
update at time 1/10 succeeds and stores poseStep, while the second update
with the same time and no new sample pairs poseStep with itself, fails,
and emits no command.  In both cases the two calls do not yield the same
command. -/
theorem C9_repeat_call_counterexample :
    ((landSample.getTargetMotionPoint 1 (some poseLow)).1.isSome = true ∧
     ((landSample.getTargetMotionPoint 1 (some poseLow)).2.getTargetMotionPoint 1
        (some poseLow)).1 = none) ∧
    ((QuadVelocityController.update 3 loopsZero twistZero qvcReady (1/10)
        (some poseStep)).1.isSome = true ∧
     (QuadVelocityController.update 3 loopsZero twistZero
        (QuadVelocityController.update 3 loopsZero twistZero qvcReady (1/10)
          (some poseStep)).2 (1/10) (some poseStep)).1 = none) := by
  have hne : LandState.DESCEND ≠ LandState.DONE := by decide
  refine ⟨⟨?_, ?_⟩, ?_, ?_⟩
  · norm_num [landSample, poseLow, LandPlanner.getTargetMotionPoint, hne]
  · norm_num [landSample, poseLow, LandPlanner.getTargetMotionPoint, hne,
      LandPlanner.nextRate, LandPlanner.targetRate, LandPlanner.targetAccel, clamp]
  · norm_num [QuadVelocityController.update, QuadVelocityController.getVelocities,
      qvcReady, QuadVelocityController.construct, poseStep,
      MAX_TRANSFORM_DIFFERENCE_SECONDS]
  · norm_num [QuadVelocityController.update, QuadVelocityController.getVelocities,
      qvcReady, QuadVelocityController.construct, poseStep,
      MAX_TRANSFORM_DIFFERENCE_SECONDS]

/-- C9 (amended): the emitted command is a deterministic function of the
component state and its inputs, and the repeated call behaves as follows.
LandPlanner: if a tick succeeds and leaves the planner in DESCEND (it did
not just land), repeating getTargetMotionPoint with the same time and the
same pose sample yields the same command and the same state; the landing
tick is the exception shown in the counterexample.  QuadVelocityController:
a successful update stores the pose sample it used, so repeating update
with the same time and no new sample pairs that sample with itself and
fails through the zero-elapsed-time guard, emitting no command rather than
the same command. -/
theorem C9_repeat_call_same_command (s : LandPlanner) (time : ℚ)
    (p : PoseSample) (piv : ℚ) (loops : ControlLoops) (target : Twist)
    (q : QuadVelocityController) (tq : ℚ) (pq : PoseSample)
    (hsucc : (s.getTargetMotionPoint time (some p)).1.isSome = true)
    (hdesc : (s.getTargetMotionPoint time (some p)).2.state = LandState.DESCEND)
    (hq : (QuadVelocityController.update piv loops target q tq
      (some pq)).1.isSome = true) :
    ((s.getTargetMotionPoint time (some p)).2.getTargetMotionPoint time (some p)
        = s.getTargetMotionPoint time (some p)) ∧
    (QuadVelocityController.update piv loops target
        (QuadVelocityController.update piv loops target q tq (some pq)).2 tq
        (some pq)).1 = none ∧
    ((QuadVelocityController.update piv loops target q tq
        (some pq)).2.getVelocities piv pq).1 =
      Except.error VelError.zeroTimeDelta := by
  refine ⟨?_, ?_⟩
  · by_cases hf : time - p.stamp > s.update_timeout
    · simp [LandPlanner.getTargetMotionPoint, if_pos hf] at hsucc
    · by_cases hst : s.state = LandState.DONE
      · simp [LandPlanner.getTargetMotionPoint, if_neg hf, hst] at hsucc
      · have hstate : s.state = LandState.DESCEND := by
          cases h : s.state
          · rfl
          · exact absurd h hst
        rw [land_tick_descend s time p hstate hf] at hdesc
        have hnl : ¬ (p.z ≤ s.landing_detected_height) := by
          intro h
          simp [h] at hdesc
        simp [LandPlanner.getTargetMotionPoint, hstate, hf, hnl, nextRate_zero_dt]
  · have ht : ¬ pq.stamp < tq := by
      intro h
      simp [QuadVelocityController.update, h] at hq
    have hstore := qvc_update_some_state piv loops target q tq pq hq
    rw [hstore]
    constructor
    · simp [QuadVelocityController.update, ht,
        QuadVelocityController.getVelocities]
    · simp [QuadVelocityController.getVelocities]

/-- Witness for the amended C9: the landing sequencer at landSample, time
1/2 and poseHigh (stays in DESCEND), and the velocity controller at the
ready state, time 1/10 and poseStep (first update succeeds). -/
theorem C9_repeat_call_same_command_witness :
    ((landSample.getTargetMotionPoint (1/2) (some poseHigh)).1.isSome = true ∧
      (landSample.getTargetMotionPoint (1/2) (some poseHigh)).2.state =
        LandState.DESCEND ∧
      (QuadVelocityController.update 3 loopsZero twistZero qvcReady (1/10)
        (some poseStep)).1.isSome = true) ∧
    ((landSample.getTargetMotionPoint (1/2) (some poseHigh)).2.getTargetMotionPoint
        (1/2) (some poseHigh)
      = landSample.getTargetMotionPoint (1/2) (some poseHigh)) ∧
    (QuadVelocityController.update 3 loopsZero twistZero
        (QuadVelocityController.update 3 loopsZero twistZero qvcReady (1/10)
          (some poseStep)).2 (1/10) (some poseStep)).1 = none ∧
    ((QuadVelocityController.update 3 loopsZero twistZero qvcReady (1/10)
        (some poseStep)).2.getVelocities 3 poseStep).1 =
      Except.error VelError.zeroTimeDelta :=
  ⟨⟨by
      have hne : LandState.DESCEND ≠ LandState.DONE := by decide
      norm_num [landSample, poseHigh, LandPlanner.getTargetMotionPoint, hne],
    by
      have hne : LandState.DESCEND ≠ LandState.DONE := by decide
      norm_num [landSample, poseHigh, LandPlanner.getTargetMotionPoint, hne,
        LandPlanner.nextRate, LandPlanner.targetRate, LandPlanner.targetAccel,
        clamp],
    by
      norm_num [QuadVelocityController.update,
        QuadVelocityController.getVelocities, qvcReady,
        QuadVelocityController.construct, poseStep,
        MAX_TRANSFORM_DIFFERENCE_SECONDS]⟩,
   C9_repeat_call_same_command landSample (1/2) poseHigh 3 loopsZero twistZero
     qvcReady (1/10) poseStep
     (by
       have hne : LandState.DESCEND ≠ LandState.DONE := by decide
       norm_num [landSample, poseHigh, LandPlanner.getTargetMotionPoint, hne])
     (by
       have hne : LandState.DESCEND ≠ LandState.DONE := by decide
       norm_num [landSample, poseHigh, LandPlanner.getTargetMotionPoint, hne,
         LandPlanner.nextRate, LandPlanner.targetRate, LandPlanner.targetAccel,
         clamp])
     (by
       norm_num [QuadVelocityController.update,
         QuadVelocityController.getVelocities, qvcReady,
         QuadVelocityController.construct, poseStep,
         MAX_TRANSFORM_DIFFERENCE_SECONDS])⟩

end Iarc7Motion
